import Mathlib

/-!
Shallow embedding of the GIENE resilience-testing scripts.

Conventions used throughout:
* each `random.random()` draw is an explicit input `r : ℚ` with `0 ≤ r < 1`
  understood; `random.choice(xs)` is an input index `k : ℕ` selecting
  `xs[k % xs.length]`;
* wall-clock timestamps and log output are dropped; where a claim is about
  `time.sleep` or about whether a random draw happened at all, those effects
  are reified as Boolean fields of the result;
* Python `while` loops are fuel-indexed recursions returning `none` when the
  fuel is exhausted before the loop exits on its own;
* Python dicts that are only ever read through `.get(key, default)` or
  initialised-to-zero-then-incremented are modelled as association lists
  (for the fixed configuration tables) or total maps with zero default
  (for the statistics counters).
-/

/-- Splitter for the separator `" em "` used by the Python scripts
(`erro.split(" em ")`), written over `List Char` so that it is structurally
recursive: the first argument is the rest of the input, the second the
(reversed) characters accumulated for the current piece. -/
def splitEm : List Char → List Char → List (List Char)
  | [], acc => [acc.reverse]
  | ' ' :: 'e' :: 'm' :: ' ' :: rest, acc => acc.reverse :: splitEm rest []
  | c :: rest, acc => splitEm rest (c :: acc)

/-- Embedding of Python `s.split(" em ")`. -/
def splitOnEm (s : String) : List String :=
  (splitEm s.data []).map String.mk

/-- Check that `pat` occurs as a contiguous sublist of the second argument. -/
def listIsInfix (pat : List Char) : List Char → Bool
  | [] => pat.isEmpty
  | c :: rest => pat.isPrefixOf (c :: rest) || listIsInfix pat rest

/-- Embedding of the Python substring test `pat in hay` for strings. -/
def strContains (hay pat : String) : Bool := listIsInfix pat.data hay.data

namespace SystemRunner
/-
Embedding of `src/main.py`, class `SystemRunner`.
-/

/-- Constant `self.MAX_CONSECUTIVE_FAILURES` set in `SystemRunner.__init__`. -/
def MAX_CONSECUTIVE_FAILURES : ℕ := 100

/-- Constant `self.REQUIRED_SUCCESSFUL_RUNS` set in `SystemRunner.__init__`. -/
def REQUIRED_SUCCESSFUL_RUNS : ℕ := 1000

/-- Mutable counters of a `SystemRunner` instance. -/
structure State where
  consecutive_failures : ℕ
  successful_runs : ℕ
deriving DecidableEq, Repr

/-- Initial state built by `SystemRunner.__init__`: both counters are 0. -/
def initState : State := ⟨0, 0⟩

/-- Embedding of `SystemRunner.simulate_error`: a draw below 0.1 is a macro
error, below 0.2 a micro error, anything else a success. -/
def simulate_error (error_chance : ℚ) : Bool × Option String :=
  if error_chance < mkRat 1 10 then (false, some "Macro error: Major system failure")
  else if error_chance < mkRat 2 10 then (false, some "Micro error: Minor system glitch")
  else (true, none)

/-- Embedding of `SystemRunner.attempt_fix`: succeeds iff the draw is
strictly above 0.3 (`random.random() > 0.3`). -/
def attempt_fix (r : ℚ) : Bool :=
  r > mkRat 3 10

/-- Embedding of `SystemRunner.run_iteration`: a sampled failure that
`attempt_fix` repairs makes the whole iteration return `True`. -/
def run_iteration (rErr rFix : ℚ) : Bool :=
  let (success, _error) := simulate_error rErr
  if !success then attempt_fix rFix else true

/-- Body of the `while` loop in `SystemRunner.run`: on a true iteration
`successful_runs += 1` and `consecutive_failures = 0`, otherwise
`consecutive_failures += 1` and `successful_runs = 0`. -/
def runStep (s : State) (d : ℚ × ℚ) : State :=
  if run_iteration d.1 d.2 then
    { consecutive_failures := 0, successful_runs := s.successful_runs + 1 }
  else
    { consecutive_failures := s.consecutive_failures + 1, successful_runs := 0 }

/-- Terminal outcomes of `SystemRunner.run`. -/
inductive RunOutcome where
  | succeeded
  | aborted
deriving DecidableEq, Repr

/-- Embedding of `SystemRunner.run`, fuel-indexed.  `draws n` is the pair
of random values consumed by iteration `n` (the fix draw is unused when the
sample succeeds).  Returns `none` when fuel runs out before the loop exits,
otherwise the final state, the number of iterations executed, and how the
loop terminated: `succeeded` when `successful_runs` reached
`REQUIRED_SUCCESSFUL_RUNS`, `aborted` on the
`consecutive_failures >= MAX_CONSECUTIVE_FAILURES` break. -/
def run (draws : ℕ → ℚ × ℚ) : ℕ → State → ℕ → Option (State × ℕ × RunOutcome)
  | 0, s, n =>
    if s.successful_runs < REQUIRED_SUCCESSFUL_RUNS then
      if s.consecutive_failures ≥ MAX_CONSECUTIVE_FAILURES then
        some (s, n, .aborted)
      else
        none
    else
      some (s, n, .succeeded)
  | fuel + 1, s, n =>
    if s.successful_runs < REQUIRED_SUCCESSFUL_RUNS then
      if s.consecutive_failures ≥ MAX_CONSECUTIVE_FAILURES then
        some (s, n, .aborted)
      else
        run draws fuel (runStep s (draws n)) (n + 1)
    else
      some (s, n, .succeeded)

end SystemRunner

namespace MainVarredura
/-
Embedding of `realizar_varredura` from `src/main.py`.  Its body calls
`rodar_sistema()`, a name `src/main.py` itself never defines (only the
backup copy does), so the per-call verdicts enter the embedding as the
stream `resultados`: `resultados n` is the verdict of the `n`-th call.
-/

/-- Local counters of `realizar_varredura`: consecutive successes,
cumulative failures (note: never reset), and total attempts. -/
structure VarrState where
  execucoes_sucesso : ℕ
  execucoes_falha : ℕ
  tentativas : ℕ
deriving DecidableEq, Repr

/-- The `while execucoes_sucesso < repeticoes` loop of `realizar_varredura`,
fuel-indexed.  Each iteration increments `tentativas`, then on success
increments `execucoes_sucesso`, on failure increments `execucoes_falha` and
zeroes `execucoes_sucesso`; the loop breaks when `execucoes_falha > 100`. -/
def loop (resultados : ℕ → Bool) (repeticoes : ℕ) : ℕ → VarrState → Option VarrState
  | 0, s => if s.execucoes_sucesso < repeticoes then none else some s
  | fuel + 1, s =>
    if s.execucoes_sucesso < repeticoes then
      let s1 :=
        if resultados s.tentativas then
          { s with tentativas := s.tentativas + 1,
                   execucoes_sucesso := s.execucoes_sucesso + 1 }
        else
          { s with tentativas := s.tentativas + 1,
                   execucoes_falha := s.execucoes_falha + 1,
                   execucoes_sucesso := 0 }
      if s1.execucoes_falha > 100 then some s1
      else loop resultados repeticoes fuel s1
    else some s

/-- Embedding of `realizar_varredura`: runs the loop from all-zero counters
and reports, alongside the final counters, the final
`execucoes_sucesso == repeticoes` check (the congratulation branch). -/
def realizar_varredura (resultados : ℕ → Bool) (repeticoes fuel : ℕ) :
    Option (VarrState × Bool) :=
  (loop resultados repeticoes fuel ⟨0, 0, 0⟩).map
    fun s => (s, s.execucoes_sucesso == repeticoes)

end MainVarredura

namespace Resilience
/-
Embedding of `src/backups/inicial/server/standalone/system_resilience.py`.
-/

/-- Embedding of `rodar_sistema`: a draw below 0.1 raises, the handler
calls the local `corrigir_erro` (which only prints) and returns `False`;
otherwise `True`. -/
def rodar_sistema (r : ℚ) : Bool :=
  if r < mkRat 1 10 then false else true

/-- Counters of `executar_com_resiliencia`. -/
structure ResState where
  execucoes_sucesso : ℕ
  tentativas_consecutivas : ℕ
deriving DecidableEq, Repr

/-- Body of the `while` loop of `executar_com_resiliencia`: success
increments `execucoes_sucesso` and zeroes `tentativas_consecutivas`,
failure increments `tentativas_consecutivas` and zeroes
`execucoes_sucesso`. -/
def step (s : ResState) (r : ℚ) : ResState :=
  if rodar_sistema r then
    { execucoes_sucesso := s.execucoes_sucesso + 1, tentativas_consecutivas := 0 }
  else
    { execucoes_sucesso := 0, tentativas_consecutivas := s.tentativas_consecutivas + 1 }

end Resilience

namespace BackupsMain
/-
Embedding of `corrigir_erro` from `src/backups/inicial/main.py`.
-/

/-- The 20 error kinds with a registered correction action: the keys of the
`acoes_correcao` dict, in order. -/
def acoes_correcao_keys : List String := [
  "API timeout", "Invalid response format", "Content policy violation",
  "FFmpeg error", "Video processing timeout", "Insufficient resources",
  "Unsupported language", "Audio generation failed", "API rate limit",
  "API connection refused", "Invalid credentials", "Rate limit exceeded",
  "Authentication failed", "Post rejected", "Media format invalid",
  "No fallback available", "Fallback also failed", "Configuration error",
  "Service unavailable", "Health check failed"]

/-- Result of one `corrigir_erro` call together with its reified effects:
whether `time.sleep(0.5)` ran and whether `random.random()` was drawn. -/
structure CorrigirTrace where
  ok : Bool
  slept : Bool
  drew : Bool
deriving DecidableEq, Repr

/-- Embedding of `corrigir_erro(erro)`.  An empty/None message returns
`True` straight away; a message that does not split into exactly two parts
around `" em "` returns `False` straight away; otherwise the function
sleeps, and succeeds iff the draw is below 0.95 when the error kind has a
registered action and below 0.5 otherwise. -/
def corrigir_erro (erro : Option String) (r : ℚ) : CorrigirTrace :=
  match erro with
  | none => ⟨true, false, false⟩
  | some msg =>
    if msg = "" then ⟨true, false, false⟩
    else
      let partes := splitOnEm msg
      if partes.length = 2 then
        let tipo_erro := partes.getD 0 ""
        if tipo_erro ∈ acoes_correcao_keys then
          ⟨decide (r < mkRat 95 100), true, true⟩
        else
          ⟨decide (r < mkRat 1 2), true, true⟩
      else ⟨false, false, false⟩

end BackupsMain

namespace SystemTester
/-
Embedding of `src/scripts/system_tester.py`, class `SystemTester`.
-/

/-- Shape shared by every per-module record and by `general_tests`.  The
`errors` tally is a total map with zero default: the Python code creates a
missing key with value 1, which coincides with incrementing from 0. -/
structure RecordStats where
  attempts : ℕ
  successes : ℕ
  failures : ℕ
  errors : String → ℕ

/-- An entry of `optimizations_applied` (its timestamp is dropped). -/
structure Otimizacao where
  module : Option String
  error : Option String
  action : String

/-- The `self.statistics` dict.  `modules_tested` is a total map with
all-zero default records: `testar_modulo` initialises a missing module key
to an all-zero record before touching it, which coincides with reading the
default. -/
structure Statistics where
  modules_tested : String → RecordStats
  general_tests : RecordStats
  optimizations_applied : List Otimizacao

/-- Record with every counter at zero. -/
def emptyRecord : RecordStats := ⟨0, 0, 0, fun _ => 0⟩

/-- The statistics built in `SystemTester.__init__`. -/
def initialStatistics : Statistics := ⟨fun _ => emptyRecord, emptyRecord, []⟩

/-- The `falha_probabilidades` dict of `executar_sistema` (the `None` key
is the general sweep). -/
def falha_probabilidades : List (Option String × ℚ) := [
  (some "content_generation", mkRat 2 100),
  (some "video_generation", mkRat 3 100),
  (some "text_to_speech", mkRat 1 100),
  (some "api_integration", mkRat 4 100),
  (some "social_media_posting", mkRat 2 100),
  (some "fallback_mechanisms", mkRat 1 100),
  (some "resilience_service", mkRat 5 1000),
  (none, mkRat 1 100)]

/-- The `tipos_erro` dict of `executar_sistema`. -/
def tipos_erro : List (Option String × List String) := [
  (some "content_generation",
    ["API timeout", "Invalid response format", "Content policy violation"]),
  (some "video_generation",
    ["FFmpeg error", "Video processing timeout", "Insufficient resources"]),
  (some "text_to_speech",
    ["Unsupported language", "Audio generation failed", "API rate limit"]),
  (some "api_integration",
    ["API connection refused", "Invalid credentials", "Rate limit exceeded"]),
  (some "social_media_posting",
    ["Authentication failed", "Post rejected", "Media format invalid"]),
  (some "fallback_mechanisms",
    ["No fallback available", "Fallback also failed", "Configuration error"]),
  (some "resilience_service",
    ["Service unavailable", "Health check failed"]),
  (none,
    ["System error", "Unknown error", "Resource allocation failed", "Unexpected behavior"])]

/-- Embedding of `falha_probabilidades.get(modulo, 0.01)`. -/
def falhaProb (modulo : Option String) : ℚ :=
  (falha_probabilidades.lookup modulo).getD (mkRat 1 100)

/-- Embedding of `tipos_erro.get(modulo, ["Unknown error"])`. -/
def tiposErroFor (modulo : Option String) : List String :=
  (tipos_erro.lookup modulo).getD ["Unknown error"]

/-- Embedding of `SystemTester.executar_sistema`: fails iff the draw is
below the module's configured probability; on failure the raised
`ValueError` text is caught and returned, built from the chosen error kind
and the module name (`'Sistema Geral'` for the general sweep). -/
def executar_sistema (modulo : Option String) (r : ℚ) (choice : ℕ) :
    Bool × Option String :=
  if r < falhaProb modulo then
    let possiveis_erros := tiposErroFor modulo
    let erro_selecionado := possiveis_erros.getD (choice % possiveis_erros.length) "Unknown error"
    (false, some (erro_selecionado ++ " em " ++ modulo.getD "Sistema Geral"))
  else (true, none)

/-- The nested `acoes` dict of `_gerar_acao_correcao`, keyed by module. -/
def acoes : List (String × List (String × String)) := [
  ("content_generation", [
    ("API timeout", "Aumentado timeout e implementado retry exponencial"),
    ("Invalid response format", "Adicionada validação e normalização de resposta"),
    ("Content policy violation", "Ajustado filtro de conteúdo com regras mais específicas")]),
  ("video_generation", [
    ("FFmpeg error", "Atualizado parâmetros FFmpeg para compatibilidade"),
    ("Video processing timeout", "Otimizado processo de renderização com buffer"),
    ("Insufficient resources", "Implementado gerenciamento dinâmico de recursos")]),
  ("text_to_speech", [
    ("Unsupported language", "Adicionado fallback para idioma não suportado"),
    ("Audio generation failed", "Implementado mecanismo alternativo de síntese"),
    ("API rate limit", "Adicionado controle de taxa com filas de prioridade")]),
  ("api_integration", [
    ("API connection refused", "Implementado circuito aberto com reconexão gradual"),
    ("Invalid credentials", "Atualizado sistema de gerenciamento de tokens"),
    ("Rate limit exceeded", "Adicionado throttling adaptativo baseado em feedback")]),
  ("social_media_posting", [
    ("Authentication failed", "Renovação automática de credenciais implementada"),
    ("Post rejected", "Adicionado pré-verificador de conformidade"),
    ("Media format invalid", "Implementado conversor automático de formato")]),
  ("fallback_mechanisms", [
    ("No fallback available", "Criado novo caminho de fallback para este cenário"),
    ("Fallback also failed", "Adicionado sistema de fallback em camadas"),
    ("Configuration error", "Correção de configuração e validação automática")]),
  ("resilience_service", [
    ("Service unavailable", "Implementado modo degradado autônomo"),
    ("Health check failed", "Ajustado algoritmo de detecção de saúde do serviço")])]

/-- The generic fallback description of `_gerar_acao_correcao`. -/
def genericAction : String := "Aplicada correção genérica baseada em análise de padrões"

/-- Embedding of `SystemTester._gerar_acao_correcao`: the first key of the
module's table occurring as a substring of the full error text wins;
a missing module (including `None`) or no match falls back to the generic
description. -/
def gerar_acao_correcao (modulo : Option String) (erro : String) : String :=
  let tbl := match modulo with
    | some m => (acoes.lookup m).getD []
    | none => []
  match tbl.find? (fun p => strContains erro p.1) with
  | some p => p.2
  | none => genericAction

/-- Embedding of `SystemTester.corrigir_erro`: succeeds iff the draw is
below 0.95 (independently of module and error kind); on success it appends
an optimization entry whose action text embeds `_gerar_acao_correcao`'s
description (Python renders a `None` module as the text `"None"`). -/
def corrigir_erro (stats : Statistics) (modulo erro : Option String) (r : ℚ) :
    Bool × Statistics :=
  if r < mkRat 95 100 then
    (true,
      { stats with optimizations_applied := stats.optimizations_applied ++
          [{ module := modulo, error := erro,
             action := "Correção aplicada em " ++ modulo.getD "None" ++ ": "
               ++ gerar_acao_correcao modulo (erro.getD "") }] })
  else (false, stats)

/-- Pointwise update of one module's record inside the statistics. -/
def updModule (st : Statistics) (nome : String) (f : RecordStats → RecordStats) :
    Statistics :=
  { st with modules_tested :=
      fun x => if x = nome then f (st.modules_tested x) else st.modules_tested x }

/-- Update of the `general_tests` record inside the statistics. -/
def updGeneral (st : Statistics) (f : RecordStats → RecordStats) : Statistics :=
  { st with general_tests := f st.general_tests }

/-- Loop-local state of `testar_modulo` / `varredura_geral`: the statistics
plus the consecutive-success counter `execucoes_sucesso`. -/
structure TesterState where
  stats : Statistics
  execucoes_sucesso : ℕ

/-- State at the start of a fresh `SystemTester` run. -/
def initialTesterState : TesterState := ⟨initialStatistics, 0⟩

/-- Random inputs consumed by one loop iteration: the failure draw and
error choice of `executar_sistema`, and the correction draw. -/
structure IterDraw where
  r : ℚ
  choice : ℕ
  rFix : ℚ

/-- Body of the `while` loop of `SystemTester.testar_modulo`.  Increments
the module's `attempts`; on success increments `successes` and the streak;
on failure increments `failures`, tallies the error text, calls
`corrigir_erro` (whose verdict is only logged), zeroes the streak and calls
`save_statistics`.  The second component reports whether
`save_statistics` ran in this iteration. -/
def testar_modulo_iter (nome : String) (s : TesterState) (d : IterDraw) :
    TesterState × Bool :=
  let st1 := updModule s.stats nome fun rc => { rc with attempts := rc.attempts + 1 }
  match executar_sistema (some nome) d.r d.choice with
  | (true, _) =>
    ({ stats := updModule st1 nome fun rc => { rc with successes := rc.successes + 1 },
       execucoes_sucesso := s.execucoes_sucesso + 1 }, false)
  | (false, errOpt) =>
    let msg := errOpt.getD ""
    let st2 := updModule st1 nome fun rc =>
      { rc with failures := rc.failures + 1,
                errors := fun e => if e = msg then rc.errors e + 1 else rc.errors e }
    let corrected := corrigir_erro st2 (some nome) (some msg) d.rFix
    ({ stats := corrected.2, execucoes_sucesso := 0 }, true)

/-- Body of the `while` loop of `SystemTester.varredura_geral`: identical
to `testar_modulo_iter` but on the `general_tests` record and with
`executar_sistema()` / `corrigir_erro(None, ...)` in general scope. -/
def varredura_geral_iter (s : TesterState) (d : IterDraw) : TesterState × Bool :=
  let st1 := updGeneral s.stats fun rc => { rc with attempts := rc.attempts + 1 }
  match executar_sistema none d.r d.choice with
  | (true, _) =>
    ({ stats := updGeneral st1 fun rc => { rc with successes := rc.successes + 1 },
       execucoes_sucesso := s.execucoes_sucesso + 1 }, false)
  | (false, errOpt) =>
    let msg := errOpt.getD ""
    let st2 := updGeneral st1 fun rc =>
      { rc with failures := rc.failures + 1,
                errors := fun e => if e = msg then rc.errors e + 1 else rc.errors e }
    let corrected := corrigir_erro st2 none (some msg) d.rFix
    ({ stats := corrected.2, execucoes_sucesso := 0 }, true)

/-- The `while execucoes_sucesso < tentativas` loop of
`SystemTester.testar_modulo`, fuel-indexed.  `draws n` feeds iteration `n`;
the returned `ℕ` is the number of iterations executed (equivalently, of
`executar_sistema` samples); `none` means the fuel ran out with the loop
still going. -/
def testar_modulo_loop (nome : String) (tentativas : ℕ) (draws : ℕ → IterDraw) :
    ℕ → TesterState → ℕ → Option (TesterState × ℕ)
  | 0, s, n => if s.execucoes_sucesso < tentativas then none else some (s, n)
  | fuel + 1, s, n =>
    if s.execucoes_sucesso < tentativas then
      testar_modulo_loop nome tentativas draws fuel
        (testar_modulo_iter nome s (draws n)).1 (n + 1)
    else some (s, n)

/-- Per-record form of the accounting invariant: attempts = successes +
failures. -/
def recInv (rc : RecordStats) : Prop := rc.attempts = rc.successes + rc.failures

/-- Statistics-wide accounting invariant, for every per-module record and
for the general record. -/
def statsInv (st : Statistics) : Prop :=
  (∀ m, recInv (st.modules_tested m)) ∧ recInv st.general_tests

end SystemTester

namespace Persistence
/-
File-level model of `SystemTester.save_statistics` (and of the identical
inline writes in `src/backups/inicial/main.py`): the code runs
`open(path, "w")` — which truncates the file — and then `json.dump`s the
snapshot into the same handle.  No temporary file or rename is involved.
-/

/-- Observable contents of the statistics file over one `save_statistics`
call, in order: before the call, after the truncating `open`, after the
dump completes. -/
def save_statistics_states (prior snapshot : String) : List String :=
  [prior, "", snapshot]

/-- Caller-perspective atomicity: every observable intermediate content is
either the prior file or the full new snapshot. -/
def AtomicPersist (prior snapshot : String) (states : List String) : Prop :=
  ∀ c ∈ states, c = prior ∨ c = snapshot

end Persistence

/-! ## Helper lemmas -/

/-- `SystemTester.corrigir_erro` only ever touches the optimization log:
the per-module records and the general record pass through unchanged. -/
theorem corrigir_erro_counters_unchanged (stats : SystemTester.Statistics)
    (mo er : Option String) (r : ℚ) :
    (SystemTester.corrigir_erro stats mo er r).2.modules_tested = stats.modules_tested ∧
    (SystemTester.corrigir_erro stats mo er r).2.general_tests = stats.general_tests := by
  unfold SystemTester.corrigir_erro
  split <;> exact ⟨rfl, rfl⟩

/-- Two successive updates of the same module record fuse. -/
theorem updModule_updModule (st : SystemTester.Statistics) (nome : String)
    (f g : SystemTester.RecordStats → SystemTester.RecordStats) :
    SystemTester.updModule (SystemTester.updModule st nome f) nome g
      = SystemTester.updModule st nome (fun rc => g (f rc)) := by
  unfold SystemTester.updModule
  congr 1
  funext x
  by_cases hm : x = nome <;> simp [hm]

/-- Updating one module's record through a `recInv`-preserving transform
preserves the statistics-wide invariant. -/
theorem statsInv_updModule (st : SystemTester.Statistics) (nome : String)
    (f : SystemTester.RecordStats → SystemTester.RecordStats)
    (hf : ∀ rc, SystemTester.recInv rc → SystemTester.recInv (f rc))
    (h : SystemTester.statsInv st) :
    SystemTester.statsInv (SystemTester.updModule st nome f) := by
  refine ⟨fun m => ?_, h.2⟩
  show SystemTester.recInv (if m = nome then f (st.modules_tested m) else st.modules_tested m)
  by_cases hm : m = nome
  · rw [if_pos hm]; exact hf _ (h.1 m)
  · rw [if_neg hm]; exact h.1 m

/-- Updating the general record through a `recInv`-preserving transform
preserves the statistics-wide invariant. -/
theorem statsInv_updGeneral (st : SystemTester.Statistics)
    (f : SystemTester.RecordStats → SystemTester.RecordStats)
    (hf : ∀ rc, SystemTester.recInv rc → SystemTester.recInv (f rc))
    (h : SystemTester.statsInv st) :
    SystemTester.statsInv (SystemTester.updGeneral st f) :=
  ⟨h.1, hf _ h.2⟩

/-- On a sampled failure, `testar_modulo`'s iteration zeroes the
consecutive-success counter whatever the correction draw was. -/
theorem testar_iter_failure_resets (nome : String) (s : SystemTester.TesterState)
    (d : SystemTester.IterDraw)
    (h : (SystemTester.executar_sistema (some nome) d.r d.choice).1 = false) :
    (SystemTester.testar_modulo_iter nome s d).1.execucoes_sucesso = 0 := by
  rcases hE : SystemTester.executar_sistema (some nome) d.r d.choice with ⟨ok, msg⟩
  rw [hE] at h
  cases ok
  · simp [SystemTester.testar_modulo_iter, hE]
  · simp at h

/-- A failure step of `SystemRunner.run` pushes `consecutive_failures` at
most one past its previous value, so it cannot jump over the threshold. -/
theorem runStep_cf_le (s : SystemRunner.State) (d : ℚ × ℚ)
    (h : s.consecutive_failures < SystemRunner.MAX_CONSECUTIVE_FAILURES) :
    (SystemRunner.runStep s d).consecutive_failures ≤ SystemRunner.MAX_CONSECUTIVE_FAILURES := by
  unfold SystemRunner.runStep
  split
  · simp
  · show s.consecutive_failures + 1 ≤ SystemRunner.MAX_CONSECUTIVE_FAILURES
    omega

/-! ## Claim theorems -/

/-- C3: after every completed loop iteration, exactly one of the two streak
counters is positive — a success increments the success streak and zeroes
the failure streak, a counted failure does the opposite — both in
`SystemRunner.run` and in `executar_com_resiliencia`. -/
theorem claim3_streaks_mutually_exclusive :
    (∀ (s : SystemRunner.State) (d : ℚ × ℚ),
      (0 < (SystemRunner.runStep s d).successful_runs ∧
        (SystemRunner.runStep s d).consecutive_failures = 0) ∨
      (0 < (SystemRunner.runStep s d).consecutive_failures ∧
        (SystemRunner.runStep s d).successful_runs = 0)) ∧
    (∀ (s : Resilience.ResState) (r : ℚ),
      (0 < (Resilience.step s r).execucoes_sucesso ∧
        (Resilience.step s r).tentativas_consecutivas = 0) ∨
      (0 < (Resilience.step s r).tentativas_consecutivas ∧
        (Resilience.step s r).execucoes_sucesso = 0)) := by
  constructor
  · intro s d
    unfold SystemRunner.runStep
    split <;> simp
  · intro s r
    unfold Resilience.step
    split <;> simp

/-- C9: with a configured success target of 0, both `testar_modulo`'s loop
and `realizar_varredura` exit at once as SUCCEEDED — zero iterations, zero
Fault Model samples, statistics untouched. -/
theorem claim9_target_zero_terminates_immediately :
    (∀ (nome : String) (draws : ℕ → SystemTester.IterDraw) (fuel : ℕ)
        (stats : SystemTester.Statistics) (n : ℕ),
      SystemTester.testar_modulo_loop nome 0 draws fuel ⟨stats, 0⟩ n = some (⟨stats, 0⟩, n)) ∧
    (∀ (resultados : ℕ → Bool) (fuel : ℕ),
      MainVarredura.realizar_varredura resultados 0 fuel = some (⟨0, 0, 0⟩, true)) := by
  constructor
  · intro nome draws fuel stats n
    cases fuel <;> simp [SystemTester.testar_modulo_loop]
  · intro res fuel
    cases fuel <;> simp [MainVarredura.realizar_varredura, MainVarredura.loop]

/-- C10: the backup `corrigir_erro` is deterministic on non-conforming
input — an absent or empty error message returns `True` with no sleep and
no random draw, and a non-empty message that does not split into exactly
two parts around `" em "` returns `False` with no sleep and no draw. -/
theorem claim10_corrigir_deterministic_on_malformed :
    (∀ r : ℚ, BackupsMain.corrigir_erro none r = ⟨true, false, false⟩) ∧
    (∀ r : ℚ, BackupsMain.corrigir_erro (some "") r = ⟨true, false, false⟩) ∧
    (∀ (msg : String) (r : ℚ), msg ≠ "" → (splitOnEm msg).length ≠ 2 →
      BackupsMain.corrigir_erro (some msg) r = ⟨false, false, false⟩) := by
  refine ⟨fun r => rfl, fun r => rfl, fun msg r h1 h2 => ?_⟩
  unfold BackupsMain.corrigir_erro
  simp [h1, h2]

/-- Witness for C10 at a concrete malformed message. -/
theorem claim10_witness :
    "standalone failure" ≠ "" ∧ (splitOnEm "standalone failure").length ≠ 2 ∧
    BackupsMain.corrigir_erro (some "standalone failure") (mkRat 1 4)
      = ⟨false, false, false⟩ :=
  ⟨by decide, by decide,
    claim10_corrigir_deterministic_on_malformed.2.2 "standalone failure" (mkRat 1 4)
      (by decide) (by decide)⟩

/-- C5: the accounting invariant `attempts = successes + failures` holds of
the initial statistics and is preserved by every `testar_modulo` iteration
(for all per-module records) and every `varredura_geral` iteration (for the
general record): each iteration adds 1 to `attempts` and 1 to exactly one
of `successes`/`failures`. -/
theorem claim5_attempts_eq_successes_plus_failures :
    SystemTester.statsInv SystemTester.initialStatistics ∧
    (∀ (nome : String) (s : SystemTester.TesterState) (d : SystemTester.IterDraw),
      SystemTester.statsInv s.stats →
      SystemTester.statsInv (SystemTester.testar_modulo_iter nome s d).1.stats) ∧
    (∀ (s : SystemTester.TesterState) (d : SystemTester.IterDraw),
      SystemTester.statsInv s.stats →
      SystemTester.statsInv (SystemTester.varredura_geral_iter s d).1.stats) := by
  refine ⟨⟨fun m => rfl, rfl⟩, ?_, ?_⟩
  · intro nome s d h
    unfold SystemTester.testar_modulo_iter
    rcases hE : SystemTester.executar_sistema (some nome) d.r d.choice with ⟨ok, msg⟩
    cases ok
    · simp only []
      have hpres := corrigir_erro_counters_unchanged
        (SystemTester.updModule
          (SystemTester.updModule s.stats nome fun rc => { rc with attempts := rc.attempts + 1 })
          nome fun rc =>
            { rc with failures := rc.failures + 1,
                      errors := fun e => if e = msg.getD "" then rc.errors e + 1 else rc.errors e })
        (some nome) (some (msg.getD "")) d.rFix
      refine ⟨fun m => ?_, ?_⟩
      · rw [hpres.1, updModule_updModule]
        exact (statsInv_updModule s.stats nome _
          (fun rc hrc => by unfold SystemTester.recInv at hrc ⊢; simp; omega) h).1 m
      · rw [hpres.2, updModule_updModule]
        exact (statsInv_updModule s.stats nome _
          (fun rc hrc => by unfold SystemTester.recInv at hrc ⊢; simp; omega) h).2
    · simp only []
      rw [updModule_updModule]
      exact statsInv_updModule s.stats nome _
        (fun rc hrc => by unfold SystemTester.recInv at hrc ⊢; simp; omega) h
  · intro s d h
    unfold SystemTester.varredura_geral_iter
    rcases hE : SystemTester.executar_sistema none d.r d.choice with ⟨ok, msg⟩
    cases ok
    · simp only []
      have hpres := corrigir_erro_counters_unchanged
        (SystemTester.updGeneral
          (SystemTester.updGeneral s.stats fun rc => { rc with attempts := rc.attempts + 1 })
          fun rc =>
            { rc with failures := rc.failures + 1,
                      errors := fun e => if e = msg.getD "" then rc.errors e + 1 else rc.errors e })
        none (some (msg.getD "")) d.rFix
      refine ⟨fun m => ?_, ?_⟩
      · rw [hpres.1]; exact h.1 m
      · rw [hpres.2]
        have hg := h.2
        unfold SystemTester.recInv at hg ⊢
        simp [SystemTester.updGeneral]
        omega
    · simp only []
      refine ⟨fun m => h.1 m, ?_⟩
      have hg := h.2
      unfold SystemTester.recInv at hg ⊢
      simp [SystemTester.updGeneral]
      omega

/-- Witness for C5: the invariant transported through one concrete
`testar_modulo` iteration from the initial statistics. -/
theorem claim5_witness :
    SystemTester.recInv
      ((SystemTester.testar_modulo_iter "content_generation"
          SystemTester.initialTesterState ⟨0, 0, 0⟩).1.stats.modules_tested
        "content_generation") :=
  (claim5_attempts_eq_successes_plus_failures.2.1 "content_generation"
    SystemTester.initialTesterState ⟨0, 0, 0⟩ ⟨fun _ => rfl, rfl⟩).1 "content_generation"

/-- C6 counterexample: a successful iteration of `testar_modulo` changes
the statistics (`attempts` goes from 0 to 1) yet does not call
`save_statistics` — persistence does not follow every state-changing
event. -/
theorem claim6_counterexample :
    (SystemTester.testar_modulo_iter "content_generation"
        SystemTester.initialTesterState ⟨1, 0, 0⟩).2 = false ∧
    ((SystemTester.testar_modulo_iter "content_generation"
        SystemTester.initialTesterState ⟨1, 0, 0⟩).1.stats.modules_tested
      "content_generation").attempts = 1 ∧
    (SystemTester.initialTesterState.stats.modules_tested
      "content_generation").attempts = 0 := by
  exact ⟨by decide, by decide, rfl⟩

/-- C6 as amended: `save_statistics` runs in an iteration of
`testar_modulo` (resp. `varredura_geral`) exactly when the sampled
execution failed; successful iterations mutate the statistics without
persisting them. -/
theorem claim6_amended_persist_iff_failure :
    ∀ (nome : String) (s : SystemTester.TesterState) (d : SystemTester.IterDraw),
      (SystemTester.testar_modulo_iter nome s d).2
        = !(SystemTester.executar_sistema (some nome) d.r d.choice).1 ∧
      (SystemTester.varredura_geral_iter s d).2
        = !(SystemTester.executar_sistema none d.r d.choice).1 := by
  intro nome s d
  constructor
  · rcases hE : SystemTester.executar_sistema (some nome) d.r d.choice with ⟨ok, msg⟩
    cases ok <;> simp [SystemTester.testar_modulo_iter, hE]
  · rcases hE : SystemTester.executar_sistema none d.r d.choice with ⟨ok, msg⟩
    cases ok <;> simp [SystemTester.varredura_geral_iter, hE]

/-- C7 counterexample: `save_statistics` truncates the statistics file in
place before writing, so the empty content is observable mid-call — the
write is not atomic for concrete distinct non-empty prior and new
snapshots. -/
theorem claim7_counterexample :
    "" ∈ Persistence.save_statistics_states "prior stats snapshot"
        "updated stats snapshot" ∧
    ¬ Persistence.AtomicPersist "prior stats snapshot" "updated stats snapshot"
        (Persistence.save_statistics_states "prior stats snapshot"
          "updated stats snapshot") := by
  refine ⟨by simp [Persistence.save_statistics_states], fun h => ?_⟩
  rcases h "" (by simp [Persistence.save_statistics_states]) with h3 | h3 <;>
    exact absurd h3.symm (by decide)

/-- C7 as amended: an uninterrupted `save_statistics` call leaves exactly
the full new snapshot in the file, but the call opens the file with mode
`"w"` (truncate-then-write, no temporary file, no rename), so whenever the
prior and new contents are non-empty the intermediate empty state violates
caller-perspective atomicity. -/
theorem claim7_amended_truncate_then_write (prior snapshot : String)
    (h1 : prior ≠ "") (h2 : snapshot ≠ "") :
    (Persistence.save_statistics_states prior snapshot).getLast? = some snapshot ∧
    ¬ Persistence.AtomicPersist prior snapshot
        (Persistence.save_statistics_states prior snapshot) := by
  refine ⟨rfl, fun h => ?_⟩
  rcases h "" (by simp [Persistence.save_statistics_states]) with h3 | h3
  · exact h1 h3.symm
  · exact h2 h3.symm

/-- Witness for the amended C7 at concrete file contents. -/
theorem claim7_witness :
    "prior stats" ≠ "" ∧ "new stats" ≠ "" ∧
    ¬ Persistence.AtomicPersist "prior stats" "new stats"
        (Persistence.save_statistics_states "prior stats" "new stats") :=
  ⟨by decide, by decide,
    (claim7_amended_truncate_then_write "prior stats" "new stats"
      (by decide) (by decide)).2⟩

/-- C8 counterexample: at identical random inputs, an unrecognized module
name yields the error kind `"Unknown error"` (the `.get` fallback
singleton), while the general/unscoped sample yields `"System error"` from
the four-element general list — the unlisted module is not treated as the
general case for error-kind selection. -/
theorem claim8_counterexample :
    SystemTester.executar_sistema (some "unknown_module") 0 0
      = (false, some "Unknown error em unknown_module") ∧
    SystemTester.executar_sistema none 0 0
      = (false, some "System error em Sistema Geral") ∧
    SystemTester.tiposErroFor (some "unknown_module") ≠ SystemTester.tiposErroFor none := by
  exact ⟨by decide, by decide, by decide⟩

/-- C8 as amended: a module name absent from both configuration tables
completes normally with the default failure probability 0.01 — which
coincides with the general probability — but draws its error kind from the
fallback singleton `["Unknown error"]`, not from the general default
error-kind list. -/
theorem claim8_amended_unknown_module (m : String)
    (h1 : SystemTester.falha_probabilidades.lookup (some m) = none)
    (h2 : SystemTester.tipos_erro.lookup (some m) = none) :
    SystemTester.falhaProb (some m) = mkRat 1 100 ∧
    SystemTester.falhaProb (some m) = SystemTester.falhaProb none ∧
    SystemTester.tiposErroFor (some m) = ["Unknown error"] ∧
    (∀ (r : ℚ) (choice : ℕ),
      SystemTester.executar_sistema (some m) r choice =
        if r < mkRat 1 100 then (false, some ("Unknown error em " ++ m))
        else (true, none)) := by
  have hp : SystemTester.falhaProb (some m) = mkRat 1 100 := by
    simp [SystemTester.falhaProb, h1]
  have ht : SystemTester.tiposErroFor (some m) = ["Unknown error"] := by
    simp [SystemTester.tiposErroFor, h2]
  refine ⟨hp, ?_, ht, ?_⟩
  · rw [hp]; decide
  · intro r choice
    unfold SystemTester.executar_sistema
    rw [hp, ht]
    simp [Nat.mod_one]

/-- Witness for the amended C8 at a concrete unlisted module name. -/
theorem claim8_witness :
    SystemTester.falha_probabilidades.lookup (some "unknown_module") = none ∧
    SystemTester.tipos_erro.lookup (some "unknown_module") = none ∧
    SystemTester.tiposErroFor (some "unknown_module") = ["Unknown error"] :=
  ⟨by decide, by decide,
    (claim8_amended_unknown_module "unknown_module" (by decide) (by decide)).2.2.1⟩

/-- C1 counterexample: with every sample failing and every fix failing,
`SystemRunner.run` terminates ABORTED after exactly 100 failing iterations,
with `consecutive_failures = 100` — the counter never strictly exceeded the
threshold 100, so it is the 100th failing iteration that triggers the
abort, not the 101st. -/
theorem claim1_counterexample :
    SystemRunner.run (fun _ => (0, 0)) 200 SystemRunner.initState 0
      = some (⟨100, 0⟩, 100, .aborted) ∧
    ¬ (100 > SystemRunner.MAX_CONSECUTIVE_FAILURES) := by
  exact ⟨by decide, by decide⟩

/-- C1 as amended: `SystemRunner.run` terminates ABORTED exactly when
`consecutive_failures` reaches `MAX_CONSECUTIVE_FAILURES` (a `>=` check):
from any state at or below the threshold, an aborted run ends with the
counter equal to 100, and any successful iteration resets the counter to
0, so failures interleaved with successes never accumulate. -/
theorem claim1_amended_abort_at_exact_threshold :
    (∀ (draws : ℕ → ℚ × ℚ) (fuel : ℕ) (s : SystemRunner.State) (n : ℕ)
        (s' : SystemRunner.State) (n' : ℕ),
      s.consecutive_failures ≤ SystemRunner.MAX_CONSECUTIVE_FAILURES →
      SystemRunner.run draws fuel s n = some (s', n', .aborted) →
      s'.consecutive_failures = SystemRunner.MAX_CONSECUTIVE_FAILURES) ∧
    (∀ (s : SystemRunner.State) (d : ℚ × ℚ),
      SystemRunner.run_iteration d.1 d.2 = true →
      (SystemRunner.runStep s d).consecutive_failures = 0) := by
  constructor
  · intro draws fuel
    induction fuel with
    | zero =>
      intro s n s' n' hle h
      unfold SystemRunner.run at h
      split_ifs at h with h1 h2
      · obtain ⟨h3, -⟩ : s = s' ∧ (n, SystemRunner.RunOutcome.aborted)
            = (n', SystemRunner.RunOutcome.aborted) := by simpa using h
        subst h3; omega
      · simp at h
    | succ fuel ih =>
      intro s n s' n' hle h
      unfold SystemRunner.run at h
      split_ifs at h with h1 h2
      · obtain ⟨h3, -⟩ : s = s' ∧ (n, SystemRunner.RunOutcome.aborted)
            = (n', SystemRunner.RunOutcome.aborted) := by simpa using h
        subst h3; omega
      · exact ih _ _ _ _ (runStep_cf_le s (draws n) (by omega)) h
      · simp at h
  · intro s d h
    simp [SystemRunner.runStep, h]

/-- Witness for the amended C1: the always-failing run from the clean
initial state aborts with the counter exactly at the threshold. -/
theorem claim1_witness :
    SystemRunner.initState.consecutive_failures ≤ SystemRunner.MAX_CONSECUTIVE_FAILURES ∧
    (⟨100, 0⟩ : SystemRunner.State).consecutive_failures
      = SystemRunner.MAX_CONSECUTIVE_FAILURES :=
  ⟨by decide,
    claim1_amended_abort_at_exact_threshold.1 (fun _ => (0, 0)) 200
      SystemRunner.initState 0 ⟨100, 0⟩ 100 (by decide) (by decide)⟩

set_option maxRecDepth 10000 in
/-- C2 counterexample: with every sample failing (draw 0) and every fix
succeeding (draw 1), each `run_iteration` of `SystemRunner` returns `True`,
so the repaired failures are counted as successes and the loop terminates
SUCCEEDED after 1000 iterations — contradicting that a fixed failure is
never counted toward the success target. -/
theorem claim2_counterexample :
    (SystemRunner.simulate_error 0).1 = false ∧
    SystemRunner.attempt_fix 1 = true ∧
    SystemRunner.run (fun _ => (0, 1)) 1001 SystemRunner.initState 0
      = some (⟨0, 1000⟩, 1000, .succeeded) := by
  exact ⟨by decide, by decide, by decide⟩

/-- C2 as amended: in `SystemTester.testar_modulo` a sampled failure zeroes
the consecutive-success streak whatever the correction outcome was, and
with every sample failing the loop never completes its sweep (for any
amount of fuel) — it has no abort transition and no consecutive-failure
counter at all.  (`SystemRunner`, by contrast, counts repaired failures as
successes; see the counterexample.) -/
theorem claim2_amended_recovered_failures_not_successes :
    (∀ (nome : String) (s : SystemTester.TesterState) (d : SystemTester.IterDraw),
      (SystemTester.executar_sistema (some nome) d.r d.choice).1 = false →
      (SystemTester.testar_modulo_iter nome s d).1.execucoes_sucesso = 0) ∧
    (∀ (nome : String) (tentativas : ℕ) (draws : ℕ → SystemTester.IterDraw),
      0 < tentativas →
      (∀ n, (SystemTester.executar_sistema (some nome) (draws n).r (draws n).choice).1
        = false) →
      ∀ (fuel : ℕ) (s : SystemTester.TesterState) (n : ℕ),
        s.execucoes_sucesso = 0 →
        SystemTester.testar_modulo_loop nome tentativas draws fuel s n = none) := by
  refine ⟨testar_iter_failure_resets, ?_⟩
  intro nome tentativas draws htent hfail fuel
  induction fuel with
  | zero =>
    intro s n hs
    unfold SystemTester.testar_modulo_loop
    rw [if_pos (by omega)]
  | succ fuel ih =>
    intro s n hs
    unfold SystemTester.testar_modulo_loop
    rw [if_pos (by omega)]
    exact ih _ _ (testar_iter_failure_resets nome s (draws n) (hfail n))

/-- Witness for the amended C2: a concrete always-failing draw stream keeps
the loop running for all of its fuel. -/
theorem claim2_witness :
    (0 : ℕ) < 1 ∧
    SystemTester.testar_modulo_loop "content_generation" 1 (fun _ => ⟨0, 0, 1⟩) 5
      SystemTester.initialTesterState 0 = none :=
  ⟨Nat.one_pos,
    claim2_amended_recovered_failures_not_successes.2 "content_generation" 1
      (fun _ => ⟨0, 0, 1⟩) Nat.one_pos
      (by intro n
          show (SystemTester.executar_sistema (some "content_generation") 0 0).1 = false
          decide) 5
      SystemTester.initialTesterState 0 rfl⟩

/-- C4 counterexample: `SystemTester.corrigir_erro` succeeds on the draw
0.7 for an error kind with no registered remediation — the generic fallback
description is what `_gerar_acao_correcao` produces for it — even though
0.7 is not below 0.5; the tester's corrector draws success with probability
0.95 regardless of whether a specific remediation exists. -/
theorem claim4_counterexample :
    (SystemTester.corrigir_erro SystemTester.initialStatistics
        (some "content_generation") (some "Zorp failure em content_generation")
        (mkRat 7 10)).1 = true ∧
    SystemTester.gerar_acao_correcao (some "content_generation")
        "Zorp failure em content_generation" = SystemTester.genericAction ∧
    ¬ (mkRat 7 10 < mkRat 1 2) := by
  exact ⟨by decide, by decide, by decide⟩

/-- C4 as amended: the 0.95/0.5 asymmetry belongs to the backup
`corrigir_erro` alone — on a well-formed message it succeeds iff the draw
is below 0.95 for a registered error kind and below 0.5 otherwise — while
`SystemTester.corrigir_erro` succeeds iff the draw is below 0.95 for every
input, and `SystemRunner.attempt_fix` succeeds iff the draw is above 0.3. -/
theorem claim4_amended_success_probabilities :
    (∀ (msg tipo modulo : String) (r : ℚ), msg ≠ "" → splitOnEm msg = [tipo, modulo] →
      BackupsMain.corrigir_erro (some msg) r =
        ⟨if tipo ∈ BackupsMain.acoes_correcao_keys then decide (r < mkRat 95 100)
          else decide (r < mkRat 1 2), true, true⟩) ∧
    (∀ (stats : SystemTester.Statistics) (modulo erro : Option String) (r : ℚ),
      (SystemTester.corrigir_erro stats modulo erro r).1 = decide (r < mkRat 95 100)) ∧
    (∀ r : ℚ, SystemRunner.attempt_fix r = decide (r > mkRat 3 10)) := by
  refine ⟨?_, ?_, fun r => rfl⟩
  · intro msg tipo modulo r h1 h2
    unfold BackupsMain.corrigir_erro
    simp only []
    rw [if_neg h1, h2]
    norm_num
    split <;> simp
  · intro stats modulo erro r
    unfold SystemTester.corrigir_erro
    split <;> rename_i h
    · exact (decide_eq_true h).symm
    · exact (decide_eq_false h).symm

/-- Witness for the amended C4 at a concrete well-formed message with a
registered error kind. -/
theorem claim4_witness :
    "API timeout em video_stuff" ≠ "" ∧
    splitOnEm "API timeout em video_stuff" = ["API timeout", "video_stuff"] ∧
    BackupsMain.corrigir_erro (some "API timeout em video_stuff") (mkRat 9 10)
      = ⟨if "API timeout" ∈ BackupsMain.acoes_correcao_keys
          then decide (mkRat 9 10 < mkRat 95 100)
          else decide (mkRat 9 10 < mkRat 1 2), true, true⟩ :=
  ⟨by decide, by decide,
    claim4_amended_success_probabilities.1 "API timeout em video_stuff" "API timeout"
      "video_stuff" (mkRat 9 10) (by decide) (by decide)⟩
